import Mathlib

/-!
Verification of the currency-pair resolver of the avanza_stock integration
(`custom_components/avanza_stock/const.py`): the static table `CURRENCY_MAP`,
the derived `REVERSE_CURRENCY_MAP`, and the pure resolver
`get_currency_config`.
-/

namespace AvanzaStock

/-- A rate-pair record of `CURRENCY_MAP`: the Python dict
`{"id": ..., "pair": ..., "invert": ...}`. -/
structure Entry where
  id : Nat
  pair : String
  invert : Bool
deriving DecidableEq, Repr

/-- Lookup in an association list modelling a Python dict read
(`d[k]` / `k in d`): first matching key wins; in a dict keys are
unique, so first match is the only match. -/
def dictLookup {K V : Type} [DecidableEq K] (k : K) : List (K × V) → Option V
  | [] => none
  | (k', v) :: rest => if k = k' then some v else dictLookup k rest

/-- Python dict insertion `d[k] = v`: overwrite in place when the key is
present, append otherwise. -/
def dictInsert {K V : Type} [DecidableEq K] (d : List (K × V)) (k : K) (v : V) :
    List (K × V) :=
  if d.any (fun p => p.1 = k) then
    d.map (fun p => if p.1 = k then (k, v) else p)
  else
    d ++ [(k, v)]

/-- The module-level `CURRENCY_MAP` dict of `const.py`.  The value `none`
models the Python `None` stored under `"SEK"`; `some e` models a rate-pair
record. Entries are listed in the source's insertion order. -/
def CURRENCY_MAP : List (String × Option Entry) :=
  [ ("SEK", none),
    ("USD", some ⟨19000, "USD/SEK", false⟩),
    ("EUR", some ⟨18998, "EUR/SEK", false⟩),
    ("NOK", some ⟨53822, "NOK/SEK", false⟩),
    ("DKK", some ⟨53824, "DKK/SEK", false⟩),
    ("SEK/USD", some ⟨19000, "USD/SEK", true⟩),
    ("SEK/EUR", some ⟨18998, "EUR/SEK", true⟩),
    ("SEK/NOK", some ⟨53822, "NOK/SEK", true⟩),
    ("SEK/DKK", some ⟨53824, "DKK/SEK", true⟩) ]

/-- The derived reverse map of `const.py`:
`{info["id"]: curr for curr, info in CURRENCY_MAP.items() if info and "id" in info}`
followed by `REVERSE_CURRENCY_MAP[None] = "SEK"`.  Keys are `Option Nat`
since Python mixes the integer ids with `None`; the comprehension inserts
in iteration order, so a later id overwrites an earlier duplicate. -/
def REVERSE_CURRENCY_MAP : List (Option Nat × String) :=
  dictInsert
    (CURRENCY_MAP.foldl
      (fun acc p =>
        match p.2 with
        | some info => dictInsert acc (some info.id) p.1
        | none => acc)
      [])
    none "SEK"

/-- `get_currency_config(base_currency, quote_currency)` of `const.py`.
The `Except` layer models Python exceptions: reading `info["id"]` in the
direct-pair or inverse-pair branch would raise `TypeError` when the stored
value is `None` (no such branch is reachable for the concrete table, which
is proved below, not assumed).  The simple-currency branch checks
`isinstance(CURRENCY_MAP[base_currency], dict)`, hence only fires on a
record value. -/
def get_currency_config (base_currency : String)
    (quote_currency : String := "SEK") : Except String (Option Nat × Bool) :=
  if base_currency = quote_currency then
    Except.ok (none, false)
  else
    match dictLookup (base_currency ++ "/" ++ quote_currency) CURRENCY_MAP with
    | some (some info) => Except.ok (some info.id, info.invert)
    | some none => Except.error "TypeError"
    | none =>
      match dictLookup (quote_currency ++ "/" ++ base_currency) CURRENCY_MAP with
      | some (some info) => Except.ok (some info.id, !info.invert)
      | some none => Except.error "TypeError"
      | none =>
        match dictLookup base_currency CURRENCY_MAP with
        | some (some info) => Except.ok (some info.id, info.invert)
        | _ => Except.ok (none, false)

/-- Modelled from the spec's words (§4.1 `resolve`): the five-branch
precedence order, first match wins.  Branch 1: identity.  Branch 2: direct
composite key with a rate-pair record.  Branch 3: reversed composite key,
invert flag flipped.  Branch 4: the source code alone is a key with a
rate-pair record (not the reference currency's placeholder).  Branch 5:
no-conversion fallback.  Stated separately from `get_currency_config` so
the two can be compared. -/
def resolve_spec (sourceCurrency targetCurrency : String) : Option Nat × Bool :=
  if sourceCurrency = targetCurrency then
    (none, false)
  else
    match dictLookup (sourceCurrency ++ "/" ++ targetCurrency) CURRENCY_MAP with
    | some (some e) => (some e.id, e.invert)
    | _ =>
      match dictLookup (targetCurrency ++ "/" ++ sourceCurrency) CURRENCY_MAP with
      | some (some e) => (some e.id, !e.invert)
      | _ =>
        match dictLookup sourceCurrency CURRENCY_MAP with
        | some (some e) => (some e.id, e.invert)
        | _ => (none, false)

/-- The only key of `CURRENCY_MAP` whose value is the `None` placeholder is
`"SEK"`. -/
lemma lookup_none_eq_sek {s : String}
    (h : dictLookup s CURRENCY_MAP = some none) : s = "SEK" := by
  simp only [CURRENCY_MAP, dictLookup] at h
  split_ifs at h <;> simp_all

/-- A composite pair string always contains the slash character. -/
lemma slash_mem_pair (a b : String) : '/' ∈ (a ++ "/" ++ b).data := by
  have h : (a ++ "/" ++ b).data = a.data ++ '/' :: b.data := by
    simp [String.data_append]
  rw [h]
  simp

/-- A composite pair string is never the placeholder key `"SEK"`. -/
lemma pair_ne_sek (a b : String) : a ++ "/" ++ b ≠ "SEK" := by
  intro h
  have hm := slash_mem_pair a b
  rw [h] at hm
  revert hm
  decide

/-- A composite-pair lookup never yields the `None` placeholder. -/
lemma lookup_pair_ne_none (a b : String) :
    dictLookup (a ++ "/" ++ b) CURRENCY_MAP ≠ some none := by
  intro h
  exact pair_ne_sek a b (lookup_none_eq_sek h)

/-- Claim C1: for every pair of currency-code strings, `get_currency_config`
follows exactly the spec's five-branch precedence order, first match wins:
identity, direct pair key, reversed pair key with flipped invert, single
currency code with a rate-pair record, and the no-conversion fallback. -/
theorem resolver_five_branch_precedence (s t : String) :
    get_currency_config s t = Except.ok (resolve_spec s t) := by
  by_cases h : s = t
  · simp [get_currency_config, resolve_spec, h]
  · unfold get_currency_config resolve_spec
    rw [if_neg h, if_neg h]
    rcases h1 : dictLookup (s ++ "/" ++ t) CURRENCY_MAP with _ | (_ | e1)
    · rcases h2 : dictLookup (t ++ "/" ++ s) CURRENCY_MAP with _ | (_ | e2)
      · rcases h3 : dictLookup s CURRENCY_MAP with _ | (_ | e3) <;> rfl
      · exact absurd h2 (lookup_pair_ne_none t s)
      · rfl
    · exact absurd h1 (lookup_pair_ne_none s t)
    · rfl

/-- Claim C2: `resolve("USD","EUR")` — with no direct or inverse table key —
falls through to the single-currency branch and returns the SEK-relative
resolution (19000, no invert) even though the target is EUR. -/
theorem resolve_usd_eur_falls_through :
    get_currency_config "USD" "EUR" = Except.ok (some 19000, false) := rfl

/-- Claim C3: reversing a resolvable pair flips only the invert flag:
`resolve("SEK","USD") = (19000, true)`, and for each of USD, EUR, NOK and
DKK the SEK-first resolution carries the same instrument id as the SEK-last
one with the opposite invert flag. -/
theorem reverse_pair_flips_invert :
    get_currency_config "SEK" "USD" = Except.ok (some 19000, true) ∧
    get_currency_config "USD" "SEK" = Except.ok (some 19000, false) ∧
    get_currency_config "SEK" "EUR" = Except.ok (some 18998, true) ∧
    get_currency_config "EUR" "SEK" = Except.ok (some 18998, false) ∧
    get_currency_config "SEK" "NOK" = Except.ok (some 53822, true) ∧
    get_currency_config "NOK" "SEK" = Except.ok (some 53822, false) ∧
    get_currency_config "SEK" "DKK" = Except.ok (some 53824, true) ∧
    get_currency_config "DKK" "SEK" = Except.ok (some 53824, false) :=
  ⟨rfl, rfl, rfl, rfl, rfl, rfl, rfl, rfl⟩

/-- Claim C4: resolving each listed currency to the reference currency SEK
yields its table row's instrument id with invert false. -/
theorem resolve_to_sek_rows :
    get_currency_config "USD" "SEK" = Except.ok (some 19000, false) ∧
    get_currency_config "EUR" "SEK" = Except.ok (some 18998, false) ∧
    get_currency_config "NOK" "SEK" = Except.ok (some 53822, false) ∧
    get_currency_config "DKK" "SEK" = Except.ok (some 53824, false) :=
  ⟨rfl, rfl, rfl, rfl⟩

/-- Claim C5: for every currency-code string `C`, including codes absent
from the table, `resolve(C, C)` is the no-conversion result. -/
theorem identity_no_conversion (C : String) :
    get_currency_config C C = Except.ok (none, false) := by
  simp [get_currency_config]

/-- Claim C6: `get_currency_config` is total and never raises: every input
pair produces an `ok` result, and an unknown pair such as ("JPY","SEK")
degrades to the no-conversion fallback rather than failing. -/
theorem resolver_total_never_raises :
    (∀ b q : String, ∃ r, get_currency_config b q = Except.ok r) ∧
    get_currency_config "JPY" "SEK" = Except.ok (none, false) := by
  constructor
  · intro b q
    by_cases h : b = q
    · exact ⟨(none, false), by simp [get_currency_config, h]⟩
    · unfold get_currency_config
      rw [if_neg h]
      rcases h1 : dictLookup (b ++ "/" ++ q) CURRENCY_MAP with _ | (_ | e1)
      · rcases h2 : dictLookup (q ++ "/" ++ b) CURRENCY_MAP with _ | (_ | e2)
        · rcases h3 : dictLookup b CURRENCY_MAP with _ | (_ | e3) <;> exact ⟨_, rfl⟩
        · exact absurd h2 (lookup_pair_ne_none q b)
        · exact ⟨_, rfl⟩
      · exact absurd h1 (lookup_pair_ne_none b q)
      · exact ⟨_, rfl⟩
  · rfl

/-- Claim C7: the static table has pairwise distinct keys (at most one entry
per currency code and per synthesized "SEK/{currency}" inverse key), and
whenever both a plain code and its inverse key are present, their entries
carry the same instrument id with opposite invert flags. -/
theorem currency_map_invariant :
    (CURRENCY_MAP.map Prod.fst).Nodup ∧
    ∀ (c : String) (e e' : Entry),
      dictLookup c CURRENCY_MAP = some (some e) →
      dictLookup ("SEK/" ++ c) CURRENCY_MAP = some (some e') →
      e.id = e'.id ∧ e'.invert = !e.invert := by
  constructor
  · decide
  · intro c e e' h h'
    simp only [CURRENCY_MAP, dictLookup] at h
    split_ifs at h <;> simp_all [dictLookup, CURRENCY_MAP] <;>
      (subst h; subst h'; exact ⟨rfl, rfl⟩)

/-- Witness for claim C7: the invariant instantiated at the concrete pair
of entries "USD" and "SEK/USD". -/
theorem currency_map_invariant_witness :
    (Entry.mk 19000 "USD/SEK" false).id = (Entry.mk 19000 "USD/SEK" true).id ∧
    (Entry.mk 19000 "USD/SEK" true).invert = !(Entry.mk 19000 "USD/SEK" false).invert :=
  currency_map_invariant.2 "USD" ⟨19000, "USD/SEK", false⟩ ⟨19000, "USD/SEK", true⟩ rfl rfl

/-- Claim C8: whenever `get_currency_config` returns an absent instrument id,
its invert flag is false — `(absent, true)` is returned for no input. -/
theorem absent_id_implies_no_invert (b q : String) (r : Option Nat × Bool)
    (h : get_currency_config b q = Except.ok r) (habs : r.1 = none) :
    r.2 = false := by
  unfold get_currency_config at h
  split_ifs at h with he
  · cases h; rfl
  · rcases h1 : dictLookup (b ++ "/" ++ q) CURRENCY_MAP with _ | (_ | e1) <;>
      simp only [h1] at h
    · rcases h2 : dictLookup (q ++ "/" ++ b) CURRENCY_MAP with _ | (_ | e2) <;>
        simp only [h2] at h
      · rcases h3 : dictLookup b CURRENCY_MAP with _ | (_ | e3) <;>
          simp only [h3] at h
        · cases h; rfl
        · cases h; rfl
        · cases h; simp at habs
      · exact absurd h2 (lookup_pair_ne_none q b)
      · cases h; simp at habs
    · exact absurd h1 (lookup_pair_ne_none b q)
    · cases h; simp at habs

/-- Witness for claim C8: the theorem applied at the identity input
("SEK","SEK"), whose result is the absent-id pair. -/
theorem absent_id_implies_no_invert_witness :
    ((none, false) : Option Nat × Bool).2 = false :=
  absent_id_implies_no_invert "SEK" "SEK" (none, false) rfl rfl

/-- Claim C9: in the derived reverse map, each of the four instrument ids
maps to the composite inverse key (the later inverse entries of
`CURRENCY_MAP` overwrite the plain-code entries), and `None` maps
to "SEK". -/
theorem reverse_currency_map_values :
    dictLookup (some 19000) REVERSE_CURRENCY_MAP = some "SEK/USD" ∧
    dictLookup (some 18998) REVERSE_CURRENCY_MAP = some "SEK/EUR" ∧
    dictLookup (some 53822) REVERSE_CURRENCY_MAP = some "SEK/NOK" ∧
    dictLookup (some 53824) REVERSE_CURRENCY_MAP = some "SEK/DKK" ∧
    dictLookup none REVERSE_CURRENCY_MAP = some "SEK" :=
  ⟨rfl, rfl, rfl, rfl, rfl⟩

/-- Claim C10: a composite pair string passed as the source currency
resolves via the single-key branch: `resolve("SEK/USD","SEK")` returns
(19000, invert true). -/
theorem composite_source_resolves :
    get_currency_config "SEK/USD" "SEK" = Except.ok (some 19000, true) := rfl

end AvanzaStock
